import Mathlib

/-
  Verification of the statistics-reconciliation and caching layer of the
  sportsense repository (backend/cache.py, backend/services/agent.py,
  backend/services/highlightly.py).

  The Python code is shallowly embedded: Python values flowing through the
  merge pipeline are modeled by the inductive type PyVal (None, int, float,
  str, list, dict); Python floats are modeled as exact rationals; Python
  dicts are association lists preserving insertion order; mutable state is
  threaded explicitly.  Branches on which the Python code would raise an
  uncaught exception (and hence crash the surrounding request) are modeled
  as returning the input unchanged; no theorem below exercises such a
  branch.
-/

/-- Embedding of the Python values that flow through the statistics
    pipeline: None, int, float (as an exact rational), str, list, dict. -/
inductive PyVal where
  | vnone
  | vint (n : Int)
  | vfloat (q : Rat)
  | vstr (s : String)
  | vlist (xs : List PyVal)
  | vdict (d : List (String × PyVal))

/-- A Python dict with string keys, as an insertion-ordered association list. -/
abbrev PyDict := List (String × PyVal)

/-- Lookup in a dict: d.get(k) returning an Option. -/
def dlookup : PyDict → String → Option PyVal
  | [], _ => Option.none
  | (k', v) :: rest, k => if k' = k then some v else dlookup rest k

/-- Lookup with default: d.get(k, default). -/
def dget (d : PyDict) (k : String) (default : PyVal) : PyVal :=
  (dlookup d k).getD default

/-- Store into a dict: d[k] = v.  Replaces in place if the key exists,
    appends otherwise (Python dicts preserve insertion order). -/
def dinsert : PyDict → String → PyVal → PyDict
  | [], k, v => [(k, v)]
  | (k', v') :: rest, k, v =>
    if k' = k then (k', v) :: rest else (k', v') :: dinsert rest k v

/-- Python truthiness: bool(v). -/
def truthy : PyVal → Bool
  | .vnone => false
  | .vint n => n ≠ 0
  | .vfloat q => q ≠ 0
  | .vstr s => s ≠ ""
  | .vlist xs => !xs.isEmpty
  | .vdict d => !d.isEmpty

/-- Python membership test v in (0, None), as used by merge_preserve:
    true for None and for an int or float equal to zero. -/
def zeroOrNone : PyVal → Bool
  | .vnone => true
  | .vint n => n = 0
  | .vfloat q => q = 0
  | _ => false

/-- Python a or b (returns the first operand when truthy, else the second). -/
def pyOr (a b : PyVal) : PyVal :=
  if truthy a then a else b

/-- Truncation of a rational toward zero, matching Python int(float). -/
def ratTrunc (q : Rat) : Int :=
  Int.tdiv q.num q.den

/-- Prefix test on character lists (kept at the character level so that
    concrete instances evaluate inside the kernel). -/
def pfxB : List Char → List Char → Bool
  | [], _ => true
  | _ :: _, [] => false
  | p :: ps, c :: cs => p == c && pfxB ps cs

/-- Substring occurrence test on character lists. -/
def hasSubL (pat : List Char) : List Char → Bool
  | [] => pat.isEmpty
  | c :: cs => pfxB pat (c :: cs) || hasSubL pat cs

/-- Lowercasing, character by character (Python str.lower on ASCII data). -/
def lowerStr (s : String) : String :=
  ⟨s.data.map Char.toLower⟩

/-- Python s.endswith(pat). -/
def endsWithStr (s pat : String) : Bool :=
  pfxB pat.data.reverse s.data.reverse

/-- Python s.startswith(pat). -/
def startsWithStr (s pat : String) : Bool :=
  pfxB pat.data s.data

/-- Python s.strip(). -/
def trimStr (s : String) : String :=
  ⟨((s.data.dropWhile Char.isWhitespace).reverse.dropWhile Char.isWhitespace).reverse⟩

/-- Drop the first n characters of a string. -/
def dropStr (s : String) (n : Nat) : String :=
  ⟨s.data.drop n⟩

/-- Remove every occurrence of a character (Python s.replace(c, "")). -/
def removeAllStr (s : String) (c : Char) : String :=
  ⟨s.data.filter (fun x => !(x == c))⟩

/-- Numeric value of a digit string. -/
def digitsToNat (cs : List Char) : Nat :=
  cs.foldl (fun n c => n * 10 + (c.toNat - Char.toNat (Char.ofNat 48))) 0

/-- Python int(s) on a string: optional sign followed by digits. -/
def toIntStrOpt (s : String) : Option Int :=
  match s.data with
  | '-' :: rest =>
    if rest ≠ [] ∧ rest.all Char.isDigit then some (-(digitsToNat rest : Int)) else Option.none
  | '+' :: rest =>
    if rest ≠ [] ∧ rest.all Char.isDigit then some ((digitsToNat rest : Int)) else Option.none
  | cs =>
    if cs ≠ [] ∧ cs.all Char.isDigit then some ((digitsToNat cs : Int)) else Option.none

/-- Split a character list at every occurrence of the separator. -/
def splitCh (c : Char) : List Char → List (List Char)
  | [] => [[]]
  | x :: xs =>
    let r := splitCh c xs
    if x == c then [] :: r
    else
      match r with
      | [] => [[x]]
      | h :: t => (x :: h) :: t

/-- Parse a decimal numeral string the way Python float() does on the
    simple forms appearing in stats payloads: optional sign, digits,
    optional fractional part.  Exotic forms (exponents, inf, nan) are
    modeled as failing. -/
def parseRatStr (s : String) : Option Rat :=
  let t := trimStr s
  let neg := startsWithStr t "-"
  let u := if startsWithStr t "-" || startsWithStr t "+" then dropStr t 1 else t
  match splitCh (Char.ofNat 46) u.data with
  | [a] =>
    if a ≠ [] ∧ a.all Char.isDigit then
      let q : Rat := ((digitsToNat a : Nat) : Rat)
      some (if neg then -q else q)
    else Option.none
  | [a, b] =>
    if (a ++ b) ≠ [] ∧ (a ++ b).all Char.isDigit then
      let ip : Rat := ((digitsToNat a : Nat) : Rat)
      let fp : Rat := ((digitsToNat b : Nat) : Rat) / ((10 : Rat) ^ b.length)
      some (if neg then -(ip + fp) else ip + fp)
    else Option.none
  | _ => Option.none

/-- Python int(v): fails (raises) on None, lists, dicts and non-integral
    strings; truncates floats toward zero. -/
def pyInt : PyVal → Option Int
  | .vnone => Option.none
  | .vint n => some n
  | .vfloat q => some (ratTrunc q)
  | .vstr s => toIntStrOpt (trimStr s)
  | .vlist _ => Option.none
  | .vdict _ => Option.none

/-- Python float(v): fails (raises) on None, lists and dicts. -/
def pyFloat : PyVal → Option Rat
  | .vnone => Option.none
  | .vint n => some (n : Rat)
  | .vfloat q => some q
  | .vstr s => parseRatStr s
  | .vlist _ => Option.none
  | .vdict _ => Option.none

/-- Python int(v or 0): zero when v is falsy, otherwise int(v); the
    Option records a possible exception from int(). -/
def intOrZeroOpt (v : PyVal) : Option Int :=
  if truthy v then pyInt v else some 0

/-- Python int(v or 0) with exceptions collapsed to 0, for call sites
    where the surrounding code treats a failed coercion as zero. -/
def intOrZero (v : PyVal) : Int :=
  (intOrZeroOpt v).getD 0

/-- Substring test, Python pat in s (for a nonempty pattern). -/
def strContains (s pat : String) : Bool :=
  hasSubL pat.data s.data

/-- Python str(v) for the values that can reach a str() call in the
    pipeline; the exact rendering only matters for strings, where it is
    the identity. -/
def pyStrOf : PyVal → String
  | .vstr s => s
  | .vnone => "None"
  | .vint n => toString n
  | _ => ""

section SimpleCacheModel

/-- State of SimpleCache (backend/cache.py): the value map self._cache and
    the expiry map self._expiry.  Wall-clock instants are abstracted to
    natural numbers; set stores now + ttl as the expiry instant. -/
structure SimpleCache where
  cache : String → Option PyVal
  expiry : String → Option Nat

/-- Pointwise update of a map modeled as a function. -/
def fupd {α : Type} (f : String → Option α) (k : String) (v : Option α) :
    String → Option α :=
  fun k' => if k' = k then v else f k'

/-- SimpleCache.get (backend/cache.py lines 26-37): absent if the key is
    missing; if the entry has an expiry in the strict past, delete it from
    both maps and report absent; otherwise return the stored value. -/
def SimpleCache.get (s : SimpleCache) (now : Nat) (key : String) :
    Option PyVal × SimpleCache :=
  match s.cache key with
  | Option.none => (Option.none, s)
  | some v =>
    match s.expiry key with
    | some e =>
      if e < now then
        (Option.none, ⟨fupd s.cache key Option.none, fupd s.expiry key Option.none⟩)
      else (some v, s)
    | Option.none => (some v, s)

/-- SimpleCache.set (backend/cache.py lines 39-43): store the value and an
    expiry of now + ttl. -/
def SimpleCache.set (s : SimpleCache) (now : Nat) (key : String) (v : PyVal)
    (ttl : Nat) : SimpleCache :=
  ⟨fupd s.cache key (some v), fupd s.expiry key (some (now + ttl))⟩

end SimpleCacheModel

/-- C6: for every key, value and ttl, a get immediately after set returns
    the value; a get strictly after the expiry instant returns absent; a
    read never returns a value past its expiry; and an expired entry that
    is present is lazily evicted from both maps by the read. -/
theorem simpleCache_ttl_correct :
    (∀ (s : SimpleCache) (now : Nat) (k : String) (v : PyVal) (ttl : Nat),
      ((s.set now k v ttl).get now k).1 = some v)
    ∧ (∀ (s : SimpleCache) (now : Nat) (k : String) (v : PyVal) (ttl t : Nat),
      now + ttl < t → ((s.set now k v ttl).get t k).1 = Option.none)
    ∧ (∀ (s : SimpleCache) (t : Nat) (k : String) (e : Nat),
      s.expiry k = some e → e < t → ((s.get t k).1 = Option.none))
    ∧ (∀ (s : SimpleCache) (t : Nat) (k : String) (e : Nat),
      s.expiry k = some e → e < t → (s.cache k).isSome →
        ((s.get t k).2.cache k = Option.none ∧ (s.get t k).2.expiry k = Option.none)) := by
  refine ⟨?_, ?_, ?_, ?_⟩
  · intro s now k v ttl
    simp [SimpleCache.get, SimpleCache.set, fupd]
  · intro s now k v ttl t h
    simp [SimpleCache.get, SimpleCache.set, fupd, h]
  · intro s t k e he h
    cases hc : s.cache k with
    | none => simp [SimpleCache.get, hc]
    | some v => simp [SimpleCache.get, hc, he, h]
  · intro s t k e he hlt hc
    cases hcv : s.cache k with
    | none => simp [hcv] at hc
    | some v =>
      constructor
      · simp [SimpleCache.get, hcv, he, hlt, fupd]
      · simp [SimpleCache.get, hcv, he, hlt, fupd]

/-- Witness for C6 at a concrete instance: set at time 0 with ttl 5, get at
    time 0 returns the value, get at time 6 returns absent and evicts. -/
theorem simpleCache_ttl_correct_witness :
    ((SimpleCache.set ⟨fun _ => Option.none, fun _ => Option.none⟩ 0 "k" (.vint 7) 5).get 0 "k").1
      = some (.vint 7)
    ∧ ((SimpleCache.set ⟨fun _ => Option.none, fun _ => Option.none⟩ 0 "k" (.vint 7) 5).get 6 "k").1
      = Option.none
    ∧ ((SimpleCache.set ⟨fun _ => Option.none, fun _ => Option.none⟩ 0 "k" (.vint 7) 5).get 6 "k").2.cache "k"
      = Option.none := by
  refine ⟨?_, ?_, ?_⟩
  · exact simpleCache_ttl_correct.1 _ 0 "k" (.vint 7) 5
  · exact simpleCache_ttl_correct.2.1 _ 0 "k" (.vint 7) 5 6 (by norm_num)
  · exact (simpleCache_ttl_correct.2.2.2
      (SimpleCache.set ⟨fun _ => Option.none, fun _ => Option.none⟩ 0 "k" (.vint 7) 5)
      6 "k" 5 (by simp [SimpleCache.set, fupd]) (by norm_num)
      (by simp [SimpleCache.set, fupd])).1

section MergePipeline

/-- One step of merge_preserve (agent.py lines 2941-2956) for a single
    source item (k, v): a missing, zero or None field is overwritten by
    the candidate; an existing non-zero touchdowns value is raised to the
    candidate when the candidate coerces to a strictly larger positive
    int; every other existing non-zero field is left untouched.  A failed
    int() coercion in the touchdowns branch hits the except clause, whose
    assignment target[k] = target.get(k, v) is a no-op for a present key. -/
def merge_preserve_step (tgt : PyDict) (kv : String × PyVal) : PyDict :=
  match dlookup tgt kv.1 with
  | Option.none => dinsert tgt kv.1 kv.2
  | some tv =>
    if zeroOrNone tv then dinsert tgt kv.1 kv.2
    else if kv.1 = "touchdowns" then
      match intOrZeroOpt tv, intOrZeroOpt kv.2 with
      | some tvi, some svi =>
        if 0 < svi ∧ tvi < svi then dinsert tgt kv.1 (.vint svi) else tgt
      | _, _ => tgt
    else tgt

/-- merge_preserve (agent.py lines 2941-2956): fold the step over the
    items of the source dict; a non-dict source is ignored. -/
def merge_preserve (tgt : PyDict) (src : PyVal) : PyDict :=
  match src with
  | .vdict d => d.foldl merge_preserve_step tgt
  | _ => tgt

/-- The caster argument of coerce inside update_from_team_block. -/
inductive Caster where
  | toInt
  | toFloat

/-- Numeric cast t(val) with exceptions collapsed to 0, as in the except
    branch of coerce (agent.py lines 2971-2977). -/
def castNumPy (v : PyVal) (c : Caster) : PyVal :=
  match c with
  | .toInt =>
    match pyInt v with
    | some n => .vint n
    | Option.none => .vint 0
  | .toFloat =>
    match pyFloat v with
    | some q => .vfloat q
    | Option.none => .vint 0

/-- coerce (agent.py lines 2971-2977): a percent-suffixed string becomes a
    float with the percent signs removed; otherwise the caster is applied;
    any exception yields int 0. -/
def coerce (v : PyVal) (c : Caster) : PyVal :=
  match v with
  | .vstr s =>
    if endsWithStr s "%" then
      match parseRatStr (trimStr (removeAllStr s (Char.ofNat 37))) with
      | some q => .vfloat q
      | Option.none => .vint 0
    else castNumPy (.vstr s) c
  | v => castNumPy v c

/-- Python comparison v > 0 for the numeric values stored in a stats
    record (a None or non-numeric value here would raise in Python). -/
def pyGtZero : PyVal → Bool
  | .vint n => 0 < n
  | .vfloat q => 0 < q
  | _ => false

/-- The inner key loop of update_from_team_block (agent.py lines
    2986-2994): find the first alias key present in the stats dict, coerce
    its value, and store it under outKey - except that a zero candidate for
    touchdowns is skipped (continue) when the current touchdowns value is
    positive, moving on to the next alias key. -/
def tbFindAndSet (sd : PyDict) (o : PyDict) (outKey : String) (c : Caster) :
    List String → PyDict
  | [] => o
  | k :: ks =>
    match dlookup sd k with
    | Option.none => tbFindAndSet sd o outKey c ks
    | some v =>
      let nv := coerce v c
      if outKey = "touchdowns" ∧ pyGtZero (dget o "touchdowns" (.vint 0)) ∧ intOrZero nv = 0
      then tbFindAndSet sd o outKey c ks
      else dinsert o outKey nv

/-- The alias table of update_from_team_block (agent.py lines 2979-2985). -/
def tbMapping : List (List String × String × Caster) :=
  [ (["yards", "totalYards", "yds"], "yards", .toInt),
    (["completionPct", "completion_percentage", "completionPercent", "cmpPct"],
      "completionPct", .toFloat),
    (["touchdowns", "tds", "td"], "touchdowns", .toInt),
    (["attempts", "passing_attempts", "passAttempts"], "attempts", .toInt),
    (["sacks"], "sacks", .toInt) ]

/-- Selection of the stats block (agent.py lines 2962-2967): the first of
    the keys statistics, stats, totals whose value is a dict. -/
def firstDictOf (d : PyDict) : List String → Option PyDict
  | [] => Option.none
  | k :: ks =>
    match dlookup d k with
    | some (.vdict sd) => some sd
    | _ => firstDictOf d ks

/-- update_from_team_block (agent.py lines 2959-2994): select the stats
    dict of the team object and run the alias table over it. -/
def update_from_team_block (teamObj : PyVal) (out : PyDict) : PyDict :=
  match teamObj with
  | .vdict d =>
    match firstDictOf d ["statistics", "stats", "totals"] with
    | some sd =>
      tbMapping.foldl (fun o ent => tbFindAndSet sd o ent.2.1 ent.2.2 ent.1) out
    | Option.none => out
  | _ => out

/-- Python int(v) with the exception case collapsed to 0; applied below
    only to values on which int() cannot raise. -/
def pyIntZ (v : PyVal) : Int :=
  (pyInt v).getD 0

/-- One stat item of map_stats (agent.py lines 3178-3197): classify the
    lowercased name and fold the parsed value into the record; yards and
    touchdowns are accumulated additively, completion percentage, attempts
    and sacks are overwritten. -/
def map_stats_item (out : PyDict) (it : PyVal) : PyDict :=
  match it with
  | .vdict itd =>
    let name := lowerStr (pyStrOf (pyOr (dget itd "name" .vnone)
      (pyOr (dget itd "displayName" .vnone) (.vstr ""))))
    let val := dget itd "value" .vnone
    let num : PyVal :=
      match val with
      | .vstr s =>
        if endsWithStr s "%" then
          match parseRatStr (trimStr (removeAllStr s (Char.ofNat 37))) with
          | some q => .vfloat q
          | Option.none => .vint 0
        else
          match pyFloat val with
          | some q => .vfloat q
          | Option.none => .vint 0
      | _ =>
        match pyFloat val with
        | some q => .vfloat q
        | Option.none => .vint 0
    if strContains name "yards" then
      dinsert out "yards" (.vint (intOrZero (dget out "yards" (.vint 0)) + pyIntZ num))
    else if strContains name "completion" then
      dinsert out "completionPct" num
    else if strContains name "touchdown" ∨ strContains name "td" then
      dinsert out "touchdowns" (.vint (intOrZero (dget out "touchdowns" (.vint 0)) + pyIntZ num))
    else if strContains name "pass attempt" ∨ strContains name "passing attempts"
        ∨ (strContains name "attempts" ∧ strContains name "pass") then
      dinsert out "attempts" (.vint (pyIntZ num))
    else if strContains name "sack" then
      dinsert out "sacks" (.vint (pyIntZ num))
    else out
  | _ => out

/-- map_stats (agent.py lines 3174-3200): skip a falsy entry, take its
    statistics (or stats) list and fold the items into the record. -/
def map_stats (entry : PyVal) (out : PyDict) : PyDict :=
  if truthy entry = false then out
  else
    match entry with
    | .vdict d =>
      match pyOr (dget d "statistics" .vnone) (pyOr (dget d "stats" .vnone) (.vlist [])) with
      | .vlist xs => xs.foldl map_stats_item out
      | _ => out
    | _ => out

/-- Python check s.replace(".", "", 1).isdigit() followed by int(float(s)),
    used for string stat values in _sum_td_from_players (agent.py lines
    856-859): accepts digit strings with at most one dot and yields the
    integer part. -/
def pyDigitFloatInt (s : String) : Option Int :=
  match splitCh (Char.ofNat 46) s.data with
  | [a] => if a ≠ [] ∧ a.all Char.isDigit then some ((digitsToNat a : Nat) : Int)
    else Option.none
  | [a, b] => if (a ++ b) ≠ [] ∧ (a ++ b).all Char.isDigit then
      some ((digitsToNat a : Nat) : Int)
    else Option.none
  | _ => Option.none

/-- The touchdown stat names recognized by _sum_td_from_players
    (agent.py line 839). -/
def tdNames : List String :=
  ["passing touchdowns", "rushing touchdowns", "receiving touchdowns"]

/-- Contribution of one stat item of one player (agent.py lines 847-861). -/
def td_item (t : Int) (st : PyVal) : Int :=
  match st with
  | .vdict std =>
    let name := lowerStr (pyStrOf (dget std "name" (.vstr "")))
    if name ∈ tdNames then
      match dget std "value" (.vint 0) with
      | .vint n => t + n
      | .vfloat q => t + ratTrunc q
      | .vstr s =>
        match pyDigitFloatInt (trimStr s) with
        | some n => t + n
        | Option.none => t
      | _ => t
    else t
  | _ => t

/-- Contribution of one player entry (agent.py lines 843-846): its
    statistics (or stats) list, items folded by td_item. -/
def td_player (tot : Int) (p : PyVal) : Int :=
  let stats :=
    match p with
    | .vdict pd => pyOr (dget pd "statistics" .vnone) (pyOr (dget pd "stats" .vnone) (.vlist []))
    | _ => .vlist []
  match stats with
  | .vlist sts => sts.foldl td_item tot
  | _ => tot

/-- sum_td_from_players (agent.py lines 838-862): total touchdowns over a
    player list; a non-list input contributes 0. -/
def sum_td_from_players (players : PyVal) : Int :=
  match players with
  | .vlist ps => ps.foldl td_player 0
  | _ => 0

/-- The derived touchdowns entry (agent.py lines 816-827): the sum of
    passing, rushing and special-teams touchdowns is recorded only when
    positive, otherwise the field stays absent. -/
def derived_touchdowns (passing rushing special : Int) : Option Int :=
  if 0 < passing + rushing + special then some (passing + rushing + special)
  else Option.none

/-- extract_team_touchdowns: the touchdowns reconciliation of
    _extract_stats_from_match_details (agent.py lines 816-827 and 836-885)
    for one team, with the three per-category totals already parsed out of
    matchStatistics.  The box-score player aggregate is preferred; the
    top-performers aggregate is the fallback when the box-score total is
    zero; a positive aggregate unconditionally overwrites the derived
    value; the final record defaults to 0 when no path reported. -/
def extract_team_touchdowns (passing rushing special : Int) (box tp : PyVal) : Int :=
  let td0 := derived_touchdowns passing rushing special
  let boxT := sum_td_from_players box
  let tpT := sum_td_from_players tp
  let best := if 0 < boxT then boxT else tpT
  (if 0 < best then some best else td0).getD 0

end MergePipeline

section DictLemmas

theorem dlookup_dinsert_self (d : PyDict) (k : String) (v : PyVal) :
    dlookup (dinsert d k v) k = some v := by
  induction d with
  | nil => simp [dinsert, dlookup]
  | cons kv rest ih =>
    by_cases h : kv.1 = k
    · cases kv
      simp_all [dinsert, dlookup]
    · cases kv
      simp_all [dinsert, dlookup]

theorem dlookup_dinsert_ne (d : PyDict) (k0 k : String) (v : PyVal) (h : k0 ≠ k) :
    dlookup (dinsert d k0 v) k = dlookup d k := by
  induction d with
  | nil => simp [dinsert, dlookup, h]
  | cons kv rest ih =>
    by_cases h2 : kv.1 = k0
    · cases kv
      simp_all [dinsert, dlookup]
    · cases kv
      simp_all [dinsert, dlookup]

theorem dinsert_of_lookup_eq (d : PyDict) (k : String) (v : PyVal)
    (h : dlookup d k = some v) : dinsert d k v = d := by
  induction d with
  | nil => simp [dlookup] at h
  | cons kv rest ih =>
    cases kv with
    | mk k1 v1 =>
      by_cases h2 : k1 = k
      · subst h2
        simp [dlookup] at h
        simp [dinsert, h]
      · simp [dlookup, h2] at h
        simp [dinsert, h2, ih h]

end DictLemmas

section MergePreserveLemmas

theorem merge_preserve_step_frame (tgt : PyDict) (kv : String × PyVal) (k : String)
    (h : kv.1 ≠ k) : dlookup (merge_preserve_step tgt kv) k = dlookup tgt k := by
  obtain ⟨k0, v0⟩ := kv
  simp only [ne_eq] at h
  unfold merge_preserve_step
  simp only
  cases dlookup tgt k0 with
  | none => exact dlookup_dinsert_ne tgt k0 k v0 h
  | some tv =>
    by_cases hz : zeroOrNone tv
    · simp only [hz, if_true]
      exact dlookup_dinsert_ne tgt k0 k v0 h
    · by_cases htd : k0 = "touchdowns"
      · subst htd
        simp only [hz, if_false, if_true, Bool.false_eq_true]
        cases intOrZeroOpt tv with
        | none => simp
        | some tvi =>
          cases intOrZeroOpt v0 with
          | none => simp
          | some svi =>
            by_cases hc : 0 < svi ∧ tvi < svi
            · simp only [hc, if_true]
              exact dlookup_dinsert_ne tgt "touchdowns" k (.vint svi) h
            · simp [hc]
      · simp [hz, htd]

theorem merge_preserve_step_nonzero (tgt : PyDict) (kv : String × PyVal) (k : String)
    (tv : PyVal) (h : dlookup tgt k = some tv) (hnz : zeroOrNone tv = false) :
    ∃ tv2, dlookup (merge_preserve_step tgt kv) k = some tv2 ∧ zeroOrNone tv2 = false := by
  obtain ⟨k0, v0⟩ := kv
  by_cases hk : k0 = k
  · subst hk
    unfold merge_preserve_step
    simp only
    rw [h]
    simp only [hnz, Bool.false_eq_true, if_false]
    by_cases htd : k0 = "touchdowns"
    · subst htd
      simp only [if_true]
      cases intOrZeroOpt tv with
      | none => exact ⟨tv, h, hnz⟩
      | some tvi =>
        cases hsv : intOrZeroOpt v0 with
        | none => exact ⟨tv, h, hnz⟩
        | some svi =>
          by_cases hc : 0 < svi ∧ tvi < svi
          · simp only [hc, if_true]
            refine ⟨.vint svi, dlookup_dinsert_self tgt "touchdowns" (.vint svi), ?_⟩
            simp only [zeroOrNone]
            have : svi ≠ 0 := by omega
            simp [this]
          · simp only [hc, if_false]
            exact ⟨tv, h, hnz⟩
    · simp only [htd, if_false]
      exact ⟨tv, h, hnz⟩
  · refine ⟨tv, ?_, hnz⟩
    rw [merge_preserve_step_frame tgt (k0, v0) k hk]
    exact h

theorem merge_preserve_fold_nonzero (l : List (String × PyVal)) :
    ∀ (tgt : PyDict) (k : String) (tv : PyVal),
      dlookup tgt k = some tv → zeroOrNone tv = false →
      ∃ tv2, dlookup (l.foldl merge_preserve_step tgt) k = some tv2 ∧ zeroOrNone tv2 = false := by
  induction l with
  | nil => exact fun tgt k tv h hnz => ⟨tv, h, hnz⟩
  | cons kv rest ih =>
    intro tgt k tv h hnz
    obtain ⟨tv2, h2, hnz2⟩ := merge_preserve_step_nonzero tgt kv k tv h hnz
    exact ih (merge_preserve_step tgt kv) k tv2 h2 hnz2

end MergePreserveLemmas

section TeamBlockLemmas

theorem pyGtZero_nonzero (v : PyVal) (h : pyGtZero v = true) : zeroOrNone v = false := by
  cases v with
  | vint n =>
    simp only [pyGtZero, decide_eq_true_eq] at h
    simp only [zeroOrNone, decide_eq_false_iff_not]
    omega
  | vfloat q =>
    simp only [pyGtZero, decide_eq_true_eq] at h
    simp only [zeroOrNone, decide_eq_false_iff_not]
    exact h.ne'
  | vnone => simp [pyGtZero] at h
  | vstr s => simp [pyGtZero] at h
  | vlist xs => simp [pyGtZero] at h
  | vdict d => simp [pyGtZero] at h

theorem tbFindAndSet_frame (sd : PyDict) (outKey : String) (c : Caster) (k : String)
    (hk : outKey ≠ k) :
    ∀ (ks : List String) (o : PyDict),
      dlookup (tbFindAndSet sd o outKey c ks) k = dlookup o k := by
  intro ks
  induction ks with
  | nil => intro o; rfl
  | cons k1 krest ih =>
    intro o
    unfold tbFindAndSet
    cases dlookup sd k1 with
    | none => exact ih o
    | some v =>
      simp only
      split
      · exact ih o
      · exact dlookup_dinsert_ne o outKey k _ hk

theorem intOrZero_vint (n : Int) : intOrZero (.vint n) = n := by
  by_cases h : n = 0 <;> simp [intOrZero, intOrZeroOpt, truthy, pyInt, h]

theorem intOrZero_ne_zero_nonzero (v : PyVal) (h : intOrZero v ≠ 0) :
    zeroOrNone v = false := by
  cases v with
  | vnone => simp [intOrZero, intOrZeroOpt, truthy] at h
  | vint n =>
    rw [intOrZero_vint] at h
    simp [zeroOrNone, h]
  | vfloat q =>
    by_cases hq : q = 0
    · subst hq
      simp [intOrZero, intOrZeroOpt, truthy] at h
    · simp [zeroOrNone, hq]
  | vstr s => simp [zeroOrNone]
  | vlist xs => simp [zeroOrNone]
  | vdict d => simp [zeroOrNone]

theorem tbFindAndSet_touchdowns (sd : PyDict) (c : Caster) :
    ∀ (ks : List String) (o : PyDict),
      pyGtZero (dget o "touchdowns" (.vint 0)) = true →
      zeroOrNone (dget (tbFindAndSet sd o "touchdowns" c ks) "touchdowns" (.vint 0)) = false := by
  intro ks
  induction ks with
  | nil =>
    intro o h
    exact pyGtZero_nonzero _ h
  | cons k1 krest ih =>
    intro o h
    unfold tbFindAndSet
    cases dlookup sd k1 with
    | none => exact ih o h
    | some v =>
      simp only
      split
      · exact ih o h
      · rename_i hng
        have hnz : intOrZero (coerce v c) ≠ 0 := by
          intro h0
          exact hng ⟨trivial, by simp [h], h0⟩
        have : dlookup (dinsert o "touchdowns" (coerce v c)) "touchdowns"
            = some (coerce v c) := dlookup_dinsert_self o "touchdowns" (coerce v c)
        rw [dget, this]
        exact intOrZero_ne_zero_nonzero _ hnz

theorem update_from_team_block_touchdowns (teamObj : PyVal) (o : PyDict)
    (h : pyGtZero (dget o "touchdowns" (.vint 0)) = true) :
    zeroOrNone (dget (update_from_team_block teamObj o) "touchdowns" (.vint 0)) = false := by
  cases teamObj with
  | vdict d =>
    unfold update_from_team_block
    simp only
    cases firstDictOf d ["statistics", "stats", "totals"] with
    | none => exact pyGtZero_nonzero _ h
    | some sd =>
      show zeroOrNone (dget (tbMapping.foldl
        (fun o ent => tbFindAndSet sd o ent.2.1 ent.2.2 ent.1) o) "touchdowns" (.vint 0)) = false
      rw [show tbMapping = [ (["yards", "totalYards", "yds"], "yards", Caster.toInt),
        (["completionPct", "completion_percentage", "completionPercent", "cmpPct"],
          "completionPct", Caster.toFloat),
        (["touchdowns", "tds", "td"], "touchdowns", Caster.toInt),
        (["attempts", "passing_attempts", "passAttempts"], "attempts", Caster.toInt),
        (["sacks"], "sacks", Caster.toInt) ] from rfl]
      simp only [List.foldl]
      have e1 : ∀ o2 : PyDict, dlookup (tbFindAndSet sd o2 "yards" Caster.toInt
          ["yards", "totalYards", "yds"]) "touchdowns" = dlookup o2 "touchdowns" :=
        fun o2 => tbFindAndSet_frame sd "yards" Caster.toInt "touchdowns" (by decide) _ o2
      have e2 : ∀ o2 : PyDict, dlookup (tbFindAndSet sd o2 "completionPct" Caster.toFloat
          ["completionPct", "completion_percentage", "completionPercent", "cmpPct"]) "touchdowns"
          = dlookup o2 "touchdowns" :=
        fun o2 => tbFindAndSet_frame sd "completionPct" Caster.toFloat "touchdowns" (by decide) _ o2
      have e4 : ∀ o2 : PyDict, dlookup (tbFindAndSet sd o2 "attempts" Caster.toInt
          ["attempts", "passing_attempts", "passAttempts"]) "touchdowns" = dlookup o2 "touchdowns" :=
        fun o2 => tbFindAndSet_frame sd "attempts" Caster.toInt "touchdowns" (by decide) _ o2
      have e5 : ∀ o2 : PyDict, dlookup (tbFindAndSet sd o2 "sacks" Caster.toInt
          ["sacks"]) "touchdowns" = dlookup o2 "touchdowns" :=
        fun o2 => tbFindAndSet_frame sd "sacks" Caster.toInt "touchdowns" (by decide) _ o2
      have h12 : pyGtZero (dget (tbFindAndSet sd (tbFindAndSet sd o "yards" Caster.toInt
          ["yards", "totalYards", "yds"]) "completionPct" Caster.toFloat
          ["completionPct", "completion_percentage", "completionPercent", "cmpPct"])
          "touchdowns" (.vint 0)) = true := by
        rw [dget, e2, e1]
        exact h
      have h3 := tbFindAndSet_touchdowns sd Caster.toInt ["touchdowns", "tds", "td"] _ h12
      rw [dget, e5, e4]
      rw [dget] at h3
      exact h3
  | vnone => exact pyGtZero_nonzero _ h
  | vint n => exact pyGtZero_nonzero _ h
  | vfloat q => exact pyGtZero_nonzero _ h
  | vstr s => exact pyGtZero_nonzero _ h
  | vlist xs => exact pyGtZero_nonzero _ h

end TeamBlockLemmas

/-- C1 (amended): in merge_preserve a zero candidate never overwrites an
    existing non-zero value, for any field: every field holding a non-zero
    value before the merge still holds a non-zero value afterwards.  In
    update_from_team_block the guard protects only touchdowns: a positive
    touchdowns value is never replaced by a zero candidate. -/
theorem merge_preserve_nonzero_invariant :
    (∀ (tgt : PyDict) (src : PyVal) (k : String) (tv : PyVal),
      dlookup tgt k = some tv → zeroOrNone tv = false →
      ∃ tv2, dlookup (merge_preserve tgt src) k = some tv2 ∧ zeroOrNone tv2 = false)
    ∧ (∀ (teamObj : PyVal) (o : PyDict),
      pyGtZero (dget o "touchdowns" (.vint 0)) = true →
      zeroOrNone (dget (update_from_team_block teamObj o) "touchdowns" (.vint 0)) = false) := by
  constructor
  · intro tgt src k tv h hnz
    cases src with
    | vdict d => exact merge_preserve_fold_nonzero d tgt k tv h hnz
    | vnone => exact ⟨tv, h, hnz⟩
    | vint n => exact ⟨tv, h, hnz⟩
    | vfloat q => exact ⟨tv, h, hnz⟩
    | vstr s => exact ⟨tv, h, hnz⟩
    | vlist xs => exact ⟨tv, h, hnz⟩
  · exact update_from_team_block_touchdowns

/-- Witness for C1 at concrete inputs: a record with yards 100 merged by
    merge_preserve against a source reporting yards 0 keeps a non-zero
    yards value, and a record with touchdowns 2 run through
    update_from_team_block against a stats block reporting touchdowns 0
    keeps a non-zero touchdowns value. -/
theorem merge_preserve_nonzero_invariant_witness :
    (∃ tv2, dlookup (merge_preserve [("yards", PyVal.vint 100)]
        (.vdict [("yards", .vint 0)])) "yards" = some tv2 ∧ zeroOrNone tv2 = false)
    ∧ zeroOrNone (dget (update_from_team_block
        (.vdict [("statistics", .vdict [("touchdowns", .vint 0)])])
        [("touchdowns", PyVal.vint 2)]) "touchdowns" (.vint 0)) = false := by
  constructor
  · exact merge_preserve_nonzero_invariant.1 [("yards", PyVal.vint 100)]
      (.vdict [("yards", .vint 0)]) "yards" (.vint 100) rfl rfl
  · exact merge_preserve_nonzero_invariant.2
      (.vdict [("statistics", .vdict [("touchdowns", .vint 0)])])
      [("touchdowns", PyVal.vint 2)] rfl

/-- C1 counterexample: update_from_team_block lets a zero candidate from
    the stats block overwrite an existing non-zero yards value, so the
    claimed invariant does not hold for every field of every merge step. -/
theorem update_from_team_block_zero_overwrite_cex :
    dlookup [("yards", PyVal.vint 100)] "yards" = some (.vint 100)
    ∧ zeroOrNone (.vint 100) = false
    ∧ dlookup (update_from_team_block (.vdict [("statistics", .vdict [("yards", .vint 0)])])
        [("yards", PyVal.vint 100)]) "yards" = some (.vint 0)
    ∧ zeroOrNone (.vint 0) = true :=
  ⟨rfl, rfl, rfl, rfl⟩

section IdempotenceLemmas

theorem intOrZeroOpt_vint (n : Int) : intOrZeroOpt (.vint n) = some n := by
  by_cases h : n = 0 <;> simp [intOrZeroOpt, truthy, pyInt, h]

theorem merge_preserve_step_noop_self (t2 : PyDict) (k : String) (v : PyVal)
    (hw : dlookup t2 k = some v) : merge_preserve_step t2 (k, v) = t2 := by
  unfold merge_preserve_step
  simp only
  rw [hw]
  by_cases hz : zeroOrNone v
  · simp only [hz, if_true]
    exact dinsert_of_lookup_eq t2 k v hw
  · simp only [hz, Bool.false_eq_true, if_false]
    by_cases htd : k = "touchdowns"
    · simp only [htd, if_true]
      cases hv : intOrZeroOpt v with
      | none => rfl
      | some i =>
        have : ¬(0 < i ∧ i < i) := by omega
        simp [this]
    · simp [htd]

theorem merge_preserve_step_noop_keep (t2 : PyDict) (k : String) (v w : PyVal)
    (hw : dlookup t2 k = some w) (hz : zeroOrNone w = false)
    (htd : k = "touchdowns" →
      (match intOrZeroOpt w, intOrZeroOpt v with
        | some a, some b => ¬(0 < b ∧ a < b)
        | _, _ => True)) :
    merge_preserve_step t2 (k, v) = t2 := by
  unfold merge_preserve_step
  simp only
  rw [hw]
  simp only [hz, Bool.false_eq_true, if_false]
  by_cases hk : k = "touchdowns"
  · simp only [hk, if_true]
    have h2 := htd hk
    cases hA : intOrZeroOpt w with
    | none => rfl
    | some a =>
      cases hB : intOrZeroOpt v with
      | none => rfl
      | some b =>
        rw [hA, hB] at h2
        simp only at h2
        simp [h2]
  · simp [hk]

theorem merge_preserve_step_settled (t t2 : PyDict) (k : String) (v : PyVal)
    (h : dlookup t2 k = dlookup (merge_preserve_step t (k, v)) k) :
    merge_preserve_step t2 (k, v) = t2 := by
  unfold merge_preserve_step at h
  simp only at h
  cases hB : dlookup t k with
  | none =>
    rw [hB] at h
    simp only at h
    rw [dlookup_dinsert_self] at h
    exact merge_preserve_step_noop_self t2 k v h
  | some tv =>
    rw [hB] at h
    by_cases hz : zeroOrNone tv
    · simp only [hz, if_true] at h
      rw [dlookup_dinsert_self] at h
      exact merge_preserve_step_noop_self t2 k v h
    · simp only [hz, Bool.false_eq_true, if_false] at h
      by_cases htd : k = "touchdowns"
      · subst htd
        rw [if_pos rfl] at h
        cases hA : intOrZeroOpt tv with
        | none =>
          rw [hA] at h
          simp only at h
          exact merge_preserve_step_noop_keep t2 _ v tv (h.trans hB) (by simpa using hz)
            (fun _ => by rw [hA]; simp)
        | some a =>
          cases hBv : intOrZeroOpt v with
          | none =>
            rw [hA, hBv] at h
            simp only at h
            exact merge_preserve_step_noop_keep t2 _ v tv (h.trans hB) (by simpa using hz)
              (fun _ => by rw [hA, hBv]; simp)
          | some b =>
            rw [hA, hBv] at h
            simp only at h
            by_cases hc : 0 < b ∧ a < b
            · rw [if_pos hc, dlookup_dinsert_self] at h
              refine merge_preserve_step_noop_keep t2 _ v (.vint b) h ?_ ?_
              · simp only [zeroOrNone, decide_eq_false_iff_not]
                omega
              · intro hk
                rw [intOrZeroOpt_vint, hBv]
                simp only
                omega
            · rw [if_neg hc] at h
              exact merge_preserve_step_noop_keep t2 _ v tv (h.trans hB) (by simpa using hz)
                (fun _ => by rw [hA, hBv]; simp only; exact hc)
      · rw [if_neg htd] at h
        exact merge_preserve_step_noop_keep t2 k v tv (h.trans hB) (by simpa using hz)
          (fun hk => absurd hk htd)

theorem merge_preserve_fold_frame (l : List (String × PyVal)) :
    ∀ (t : PyDict) (k : String), k ∉ l.map Prod.fst →
      dlookup (l.foldl merge_preserve_step t) k = dlookup t k := by
  induction l with
  | nil => intro t k _; rfl
  | cons kv rest ih =>
    intro t k hk
    simp only [List.map, List.mem_cons] at hk
    push_neg at hk
    simp only [List.foldl]
    rw [ih (merge_preserve_step t kv) k hk.2]
    exact merge_preserve_step_frame t kv k (fun he => hk.1 he.symm)

end IdempotenceLemmas

/-- C7 (amended): merge_preserve is idempotent: merging the same source
    dict (whose keys are distinct, as Python dict keys are) twice yields
    exactly the record produced by merging it once. -/
theorem merge_preserve_idempotent (l : List (String × PyVal)) (tgt : PyDict)
    (hnd : (l.map Prod.fst).Nodup) :
    merge_preserve (merge_preserve tgt (.vdict l)) (.vdict l) = merge_preserve tgt (.vdict l) := by
  show (l.foldl merge_preserve_step (l.foldl merge_preserve_step tgt))
    = l.foldl merge_preserve_step tgt
  induction l generalizing tgt with
  | nil => rfl
  | cons kv rest ih =>
    obtain ⟨k, v⟩ := kv
    simp only [List.map, List.nodup_cons] at hnd
    simp only [List.foldl]
    have hT1 : merge_preserve_step (rest.foldl merge_preserve_step (merge_preserve_step tgt (k, v))) (k, v)
        = rest.foldl merge_preserve_step (merge_preserve_step tgt (k, v)) := by
      apply merge_preserve_step_settled tgt
      exact merge_preserve_fold_frame rest (merge_preserve_step tgt (k, v)) k hnd.1
    rw [hT1]
    exact ih (merge_preserve_step tgt (k, v)) hnd.2

/-- Witness for C7: a source reporting yards 0 and touchdowns 3 merged
    twice into a record already holding touchdowns 1 gives the same record
    as merging it once. -/
theorem merge_preserve_idempotent_witness :
    merge_preserve (merge_preserve [("touchdowns", PyVal.vint 1)]
        (.vdict [("yards", .vint 0), ("touchdowns", .vint 3)]))
        (.vdict [("yards", .vint 0), ("touchdowns", .vint 3)])
      = merge_preserve [("touchdowns", PyVal.vint 1)]
        (.vdict [("yards", .vint 0), ("touchdowns", .vint 3)]) :=
  merge_preserve_idempotent [("yards", PyVal.vint 0), ("touchdowns", PyVal.vint 3)]
    [("touchdowns", PyVal.vint 1)] (by decide)

/-- C7 counterexample: map_stats is not idempotent: applying the same
    statistics entry twice doubles the touchdowns count (2 then 4), so
    merging a payload twice differs from merging it once. -/
theorem map_stats_not_idempotent_cex :
    dlookup (map_stats
      (.vdict [("statistics", .vlist [.vdict [("name", .vstr "Touchdowns"), ("value", .vint 2)]])])
      []) "touchdowns" = some (.vint 2)
    ∧ dlookup (map_stats
        (.vdict [("statistics", .vlist [.vdict [("name", .vstr "Touchdowns"), ("value", .vint 2)]])])
        (map_stats
          (.vdict [("statistics", .vlist [.vdict [("name", .vstr "Touchdowns"), ("value", .vint 2)]])])
          [])) "touchdowns" = some (.vint 4)
    ∧ map_stats
        (.vdict [("statistics", .vlist [.vdict [("name", .vstr "Touchdowns"), ("value", .vint 2)]])])
        (map_stats
          (.vdict [("statistics", .vlist [.vdict [("name", .vstr "Touchdowns"), ("value", .vint 2)]])])
          [])
      ≠ map_stats
        (.vdict [("statistics", .vlist [.vdict [("name", .vstr "Touchdowns"), ("value", .vint 2)]])])
        [] := by
  refine ⟨rfl, rfl, ?_⟩
  intro h
  have h2 := congrArg (fun d => dlookup d "touchdowns") h
  simp only at h2
  rw [show dlookup (map_stats
      (.vdict [("statistics", .vlist [.vdict [("name", .vstr "Touchdowns"), ("value", .vint 2)]])])
      (map_stats
        (.vdict [("statistics", .vlist [.vdict [("name", .vstr "Touchdowns"), ("value", .vint 2)]])])
        [])) "touchdowns" = some (.vint 4) from rfl] at h2
  rw [show dlookup (map_stats
      (.vdict [("statistics", .vlist [.vdict [("name", .vstr "Touchdowns"), ("value", .vint 2)]])])
      []) "touchdowns" = some (.vint 2) from rfl] at h2
  exact absurd (Option.some.inj h2) (by simp)

/-- C2 (amended): in the touchdowns reconciliation of
    _extract_stats_from_match_details, the player-level aggregates
    overwrite the derived total only when they are positive: when both the
    box-score and the top-performers paths report zero touchdowns, the
    derived value is kept; and in the concrete scenario where the derived
    path reports 2, the box-score path reports 0 and the top-performers
    path reports 3, the final reconciled value is exactly 3. -/
theorem extract_touchdowns_positive_overwrite :
    (∀ (p r s : Int) (box tp : PyVal),
      sum_td_from_players box = 0 → sum_td_from_players tp = 0 →
      extract_team_touchdowns p r s box tp = (derived_touchdowns p r s).getD 0)
    ∧ extract_team_touchdowns 2 0 0
        (.vlist [.vdict [("statistics",
          .vlist [.vdict [("name", .vstr "Passing Touchdowns"), ("value", .vint 0)]])]])
        (.vlist [.vdict [("statistics",
          .vlist [.vdict [("name", .vstr "Passing Touchdowns"), ("value", .vint 3)]])]])
      = 3 := by
  constructor
  · intro p r s box tp hbox htp
    unfold extract_team_touchdowns
    rw [hbox, htp]
    simp
  · rfl

/-- Witness for C2 at a concrete instance: with derived totals 1 + 0 + 0
    and both player paths summing to zero, the final value is the derived 1. -/
theorem extract_touchdowns_positive_overwrite_witness :
    extract_team_touchdowns 1 0 0 (.vlist []) (.vlist [])
      = (derived_touchdowns 1 0 0).getD 0 :=
  extract_touchdowns_positive_overwrite.1 1 0 0 (.vlist []) (.vlist []) rfl rfl

/-- C2 counterexample: touchdowns do regress: with a derived total of 5, a
    box-score aggregate of 3 unconditionally overwrites it, giving a final
    value of 3 (not the maximum 5); and a field other than touchdowns is
    not held once set: map_stats adds a new yards reading onto an already
    populated yards value (100 becomes 150). -/
theorem extract_touchdowns_regression_cex :
    derived_touchdowns 5 0 0 = some 5
    ∧ extract_team_touchdowns 5 0 0
        (.vlist [.vdict [("statistics",
          .vlist [.vdict [("name", .vstr "Passing Touchdowns"), ("value", .vint 3)]])]])
        (.vlist []) = 3
    ∧ dlookup (map_stats
        (.vdict [("statistics",
          .vlist [.vdict [("name", .vstr "Passing Yards"), ("value", .vint 50)]])])
        [("yards", PyVal.vint 100)]) "yards" = some (.vint 150) :=
  ⟨rfl, rfl, rfl⟩

section RequestClient

/-- State of the HighlightlyClient cache: the in-process tier self._cache
    with its expiry map self._cache_expiry, and the durable file tier
    mapping a key to one record holding expires_at and the data
    (highlightly.py lines 59-70 and 118-160).  Wall-clock instants are
    abstracted to natural numbers. -/
structure ClientCache where
  mem : String → Option PyVal
  memExp : String → Option Nat
  file : String → Option (Nat × PyVal)

/-- The empty client cache. -/
def emptyClientCache : ClientCache :=
  ⟨fun _ => Option.none, fun _ => Option.none, fun _ => Option.none⟩

/-- HighlightlyClient._is_cache_valid (highlightly.py lines 112-116). -/
def is_cache_valid (now : Nat) (key : String) (st : ClientCache) : Bool :=
  match st.memExp key with
  | some e => now < e
  | Option.none => false

/-- HighlightlyClient._cache_data (highlightly.py lines 118-132): store in
    the in-process tier with expiry now + ttl and persist the same record
    to the durable tier. -/
def cache_data (now : Nat) (key : String) (data : PyVal) (ttl : Nat)
    (st : ClientCache) : ClientCache :=
  ⟨fupd st.mem key (some data),
   fupd st.memExp key (some (now + ttl)),
   fupd st.file key (some (now + ttl, data))⟩

/-- HighlightlyClient._get_cached_data (highlightly.py lines 134-160): a
    valid in-process entry is returned; otherwise the in-process entry is
    evicted and the durable tier is consulted: an unexpired durable record
    is returned as-is (without being written back to the in-process tier),
    an expired one is removed. -/
def get_cached_data (now : Nat) (key : String) (st : ClientCache) :
    Option PyVal × ClientCache :=
  if is_cache_valid now key st then (st.mem key, st)
  else
    let st1 : ClientCache := ⟨fupd st.mem key Option.none, fupd st.memExp key Option.none, st.file⟩
    match st.file key with
    | some (exp, data) =>
      if now < exp then (some data, st1)
      else (Option.none, ⟨st1.mem, st1.memExp, fupd st.file key Option.none⟩)
    | Option.none => (Option.none, st1)

/-- One upstream interaction as seen by one loop iteration of
    _make_request: an HTTP response, a transport error, or a 2xx response
    whose body fails to decode as JSON. -/
inductive UpResp where
  | http (status : Nat) (body : PyVal)
  | netError
  | badJson

/-- The structured client-error return of _make_request for a non-429 4xx
    (highlightly.py line 216). -/
def clientErrDict (status : Nat) (endpoint : String) : PyVal :=
  .vdict [("error", .vstr ("Client error " ++ toString status)),
          ("status", .vint status), ("endpoint", .vstr endpoint), ("data", .vlist [])]

/-- The generic retries-exhausted return of _make_request
    (highlightly.py line 236). -/
def retriesErrDict (endpoint : String) : PyVal :=
  .vdict [("error", .vstr "Request failed after retries"),
          ("status", .vint 503), ("endpoint", .vstr endpoint), ("data", .vlist [])]

/-- The JSON-decode-error return of _make_request (highlightly.py line 231). -/
def jsonErrDict (endpoint : String) : PyVal :=
  .vdict [("error", .vstr "Invalid JSON response"),
          ("status", .vint 500), ("endpoint", .vstr endpoint), ("data", .vlist [])]

/-- Result of one _make_request call: the returned value, the number of
    HTTP requests issued, the backoff sleeps performed (in seconds, in
    order), and the resulting cache state. -/
structure ReqOutcome where
  result : PyVal
  attempts : Nat
  sleeps : List Nat
  cache : ClientCache

/-- The retry loop of _make_request (highlightly.py lines 175-236), with
    the responses the endpoint would give on successive attempts supplied
    as a stream: 2xx caches and returns the body; 429 sleeps 2 ^ attempt
    and retries; other 4xx returns the structured client error at once;
    5xx and transport errors sleep and retry; a JSON decode failure
    returns the decode-error dict.  The first argument is the number of
    attempts remaining, the second the number already made. -/
def mr_loop (resps : Nat → UpResp) (endpoint key : String) (cacheTtl now : Nat) :
    Nat → Nat → List Nat → ClientCache → ReqOutcome
  | 0, idx, sleeps, st => ⟨retriesErrDict endpoint, idx, sleeps, st⟩
  | rem + 1, idx, sleeps, st =>
    match resps idx with
    | .http status body =>
      if 200 ≤ status ∧ status < 300 then
        ⟨body, idx + 1, sleeps, cache_data now key body cacheTtl st⟩
      else if status = 429 then
        mr_loop resps endpoint key cacheTtl now rem (idx + 1) (sleeps ++ [2 ^ idx]) st
      else if 400 ≤ status ∧ status < 500 then
        ⟨clientErrDict status endpoint, idx + 1, sleeps, st⟩
      else
        mr_loop resps endpoint key cacheTtl now rem (idx + 1) (sleeps ++ [2 ^ idx]) st
    | .netError => mr_loop resps endpoint key cacheTtl now rem (idx + 1) (sleeps ++ [2 ^ idx]) st
    | .badJson => ⟨jsonErrDict endpoint, idx + 1, sleeps, st⟩

/-- The cache key of a request, a deterministic function of endpoint and
    serialized parameters (the md5 hashing of _generate_cache_key is
    abstracted away; only determinism and per-request distinctness are
    relevant). -/
def cacheKeyOf (endpoint params : String) : String :=
  endpoint ++ ":" ++ params

/-- Truthiness of an optional cached value, as tested by the line
    if cached: of _make_request (highlightly.py line 171). -/
def hitTruthy (o : Option PyVal) : Bool :=
  match o with
  | some v => truthy v
  | Option.none => false

/-- HighlightlyClient._make_request (highlightly.py lines 162-236): consult
    the cache first and return a truthy cached value without any HTTP
    request; otherwise run the retry loop with a ceiling of 4 attempts. -/
def make_request (resps : Nat → UpResp) (endpoint params : String)
    (cacheTtl now : Nat) (st : ClientCache) : ReqOutcome :=
  let key := cacheKeyOf endpoint params
  let gc := get_cached_data now key st
  match gc.1 with
  | some cv =>
    if truthy cv then ⟨cv, 0, [], gc.2⟩
    else mr_loop resps endpoint key cacheTtl now 4 0 [] gc.2
  | Option.none => mr_loop resps endpoint key cacheTtl now 4 0 [] gc.2

end RequestClient

section RequestClientLemmas

theorem mr_loop_const429 (body : PyVal) (endpoint key : String) (cacheTtl now : Nat)
    (st : ClientCache) :
    mr_loop (fun _ => .http 429 body) endpoint key cacheTtl now 4 0 [] st
      = ⟨retriesErrDict endpoint, 4, [1, 2, 4, 8], st⟩ := by
  simp [mr_loop]

theorem make_request_on_miss (resps : Nat → UpResp) (endpoint params : String)
    (cacheTtl now : Nat) (st : ClientCache)
    (hmiss : hitTruthy (get_cached_data now (cacheKeyOf endpoint params) st).1 = false) :
    make_request resps endpoint params cacheTtl now st
      = mr_loop resps endpoint (cacheKeyOf endpoint params) cacheTtl now 4 0 []
          (get_cached_data now (cacheKeyOf endpoint params) st).2 := by
  unfold make_request
  simp only
  cases hgc : (get_cached_data now (cacheKeyOf endpoint params) st).1 with
  | none => rfl
  | some cv =>
    rw [hgc] at hmiss
    simp only [hitTruthy] at hmiss
    simp [hmiss]

theorem mr_loop_attempts_ge (resps : Nat → UpResp) (endpoint key : String)
    (cacheTtl now : Nat) :
    ∀ (rem idx : Nat) (sleeps : List Nat) (st : ClientCache),
      idx ≤ (mr_loop resps endpoint key cacheTtl now rem idx sleeps st).attempts := by
  intro rem
  induction rem with
  | zero => intro idx sleeps st; exact Nat.le_refl idx
  | succ r ih =>
    intro idx sleeps st
    unfold mr_loop
    cases resps idx with
    | http status body =>
      simp only
      split
      · exact Nat.le_succ idx
      · split
        · exact Nat.le_trans (Nat.le_succ idx) (ih (idx + 1) _ st)
        · split
          · exact Nat.le_succ idx
          · exact Nat.le_trans (Nat.le_succ idx) (ih (idx + 1) _ st)
    | netError => exact Nat.le_trans (Nat.le_succ idx) (ih (idx + 1) _ st)
    | badJson => exact Nat.le_succ idx

theorem mr_loop_attempts_pos (resps : Nat → UpResp) (endpoint key : String)
    (cacheTtl now : Nat) (r idx : Nat) (sleeps : List Nat) (st : ClientCache) :
    idx + 1 ≤ (mr_loop resps endpoint key cacheTtl now (r + 1) idx sleeps st).attempts := by
  unfold mr_loop
  cases resps idx with
  | http status body =>
    simp only
    split
    · exact Nat.le_refl (idx + 1)
    · split
      · exact mr_loop_attempts_ge resps endpoint key cacheTtl now r (idx + 1) _ st
      · split
        · exact Nat.le_refl (idx + 1)
        · exact mr_loop_attempts_ge resps endpoint key cacheTtl now r (idx + 1) _ st
  | netError => exact mr_loop_attempts_ge resps endpoint key cacheTtl now r (idx + 1) _ st
  | badJson => exact Nat.le_refl (idx + 1)

end RequestClientLemmas

/-- C3 (amended): against an endpoint answering 429 on every attempt, and
    with no truthy cached value for the request, _make_request makes
    exactly the ceiling of 4 attempts with exponential backoff sleeps of
    1, 2, 4, 8 seconds, never retries beyond the ceiling, and then returns
    the generic retries-exhausted structured error carrying status 503
    (the same error used for persistent server faults), rather than an
    error specifically marked as rate-limited. -/
theorem make_request_rate_limit_bounded (endpoint params : String)
    (cacheTtl now : Nat) (st : ClientCache) (body : PyVal)
    (hmiss : hitTruthy (get_cached_data now (cacheKeyOf endpoint params) st).1 = false) :
    (make_request (fun _ => .http 429 body) endpoint params cacheTtl now st).attempts = 4
    ∧ (make_request (fun _ => .http 429 body) endpoint params cacheTtl now st).sleeps
        = [1, 2, 4, 8]
    ∧ (make_request (fun _ => .http 429 body) endpoint params cacheTtl now st).result
        = retriesErrDict endpoint := by
  rw [make_request_on_miss (fun _ => .http 429 body) endpoint params cacheTtl now st hmiss]
  rw [mr_loop_const429]
  exact ⟨rfl, rfl, rfl⟩

/-- Witness for C3 at a concrete instance: from the empty cache, an
    always-429 endpoint gives 4 attempts, sleeps 1, 2, 4, 8 and the
    retries-exhausted error. -/
theorem make_request_rate_limit_bounded_witness :
    (make_request (fun _ => .http 429 .vnone) "/matches" "d=2024" 10 0 emptyClientCache).attempts = 4
    ∧ (make_request (fun _ => .http 429 .vnone) "/matches" "d=2024" 10 0 emptyClientCache).sleeps
        = [1, 2, 4, 8]
    ∧ (make_request (fun _ => .http 429 .vnone) "/matches" "d=2024" 10 0 emptyClientCache).result
        = retriesErrDict "/matches" :=
  make_request_rate_limit_bounded "/matches" "d=2024" 10 0 emptyClientCache .vnone rfl

/-- C3 counterexample: the value returned after exhausting the 429 retries
    is the generic retries-exhausted error with status 503, identical to
    the value returned after exhausting retries against an endpoint that
    always answers 500, so the caller receives no error distinguishable as
    rate-limited (and the carried status is 503, not 429). -/
theorem make_request_rate_limited_error_cex :
    (make_request (fun _ => .http 429 .vnone) "/matches" "p" 10 0 emptyClientCache).result
      = (make_request (fun _ => .http 500 .vnone) "/matches" "p" 10 0 emptyClientCache).result
    ∧ (match (make_request (fun _ => .http 429 .vnone) "/matches" "p" 10 0 emptyClientCache).result with
        | .vdict d => dlookup d "status"
        | _ => Option.none) = some (.vint 503) :=
  ⟨rfl, rfl⟩

/-- C4: with no truthy cached value, a response with a non-429 4xx status
    on the first attempt makes exactly one attempt, performs no backoff
    sleep, and returns the structured error dict carrying that status
    code. -/
theorem make_request_client_error_fail_fast (resps : Nat → UpResp)
    (endpoint params : String) (cacheTtl now : Nat) (st : ClientCache)
    (status : Nat) (body : PyVal)
    (hmiss : hitTruthy (get_cached_data now (cacheKeyOf endpoint params) st).1 = false)
    (h0 : resps 0 = .http status body)
    (h4 : 400 ≤ status) (h5 : status < 500) (h429 : status ≠ 429) :
    (make_request resps endpoint params cacheTtl now st).attempts = 1
    ∧ (make_request resps endpoint params cacheTtl now st).sleeps = []
    ∧ (make_request resps endpoint params cacheTtl now st).result
        = clientErrDict status endpoint
    ∧ (match (make_request resps endpoint params cacheTtl now st).result with
        | .vdict d => dlookup d "status"
        | _ => Option.none) = some (.vint status) := by
  rw [make_request_on_miss resps endpoint params cacheTtl now st hmiss]
  unfold mr_loop
  rw [h0]
  have hn2 : ¬(200 ≤ status ∧ status < 300) := by omega
  have hn4 : 400 ≤ status ∧ status < 500 := ⟨h4, h5⟩
  simp only [hn2, if_false, h429, hn4, if_true]
  refine ⟨rfl, rfl, rfl, ?_⟩
  simp [clientErrDict, dlookup]

/-- Witness for C4 at a concrete instance: a 404 on the first attempt from
    the empty cache gives one attempt, no sleeps, and the structured error
    carrying 404. -/
theorem make_request_client_error_fail_fast_witness :
    (make_request (fun _ => .http 404 .vnone) "/teams" "n=x" 10 0 emptyClientCache).attempts = 1
    ∧ (make_request (fun _ => .http 404 .vnone) "/teams" "n=x" 10 0 emptyClientCache).sleeps = []
    ∧ (make_request (fun _ => .http 404 .vnone) "/teams" "n=x" 10 0 emptyClientCache).result
        = clientErrDict 404 "/teams"
    ∧ (match (make_request (fun _ => .http 404 .vnone) "/teams" "n=x" 10 0 emptyClientCache).result with
        | .vdict d => dlookup d "status"
        | _ => Option.none) = some (.vint 404) :=
  make_request_client_error_fail_fast (fun _ => .http 404 .vnone) "/teams" "n=x" 10 0
    emptyClientCache 404 .vnone rfl rfl (by norm_num) (by norm_num) (by norm_num)

/-- C10: a successful response with an empty-list body is written to the
    cache but never subsequently served from it: the first call returns
    the empty list, stores it in the in-process tier, and issues exactly
    one HTTP request; and any later identical call that finds the cached
    empty value still issues at least one HTTP request, because the
    cache-hit early return is taken only for a truthy stored value. -/
theorem make_request_empty_body_not_served :
    (∀ (resps : Nat → UpResp) (endpoint params : String) (cacheTtl now : Nat)
      (st : ClientCache),
      hitTruthy (get_cached_data now (cacheKeyOf endpoint params) st).1 = false →
      resps 0 = .http 200 (.vlist []) →
      (make_request resps endpoint params cacheTtl now st).result = .vlist []
      ∧ (make_request resps endpoint params cacheTtl now st).cache.mem
          (cacheKeyOf endpoint params) = some (.vlist [])
      ∧ (make_request resps endpoint params cacheTtl now st).attempts = 1)
    ∧ (∀ (resps : Nat → UpResp) (endpoint params : String) (cacheTtl now : Nat)
      (st : ClientCache),
      (get_cached_data now (cacheKeyOf endpoint params) st).1 = some (.vlist []) →
      1 ≤ (make_request resps endpoint params cacheTtl now st).attempts) := by
  constructor
  · intro resps endpoint params cacheTtl now st hmiss h0
    rw [make_request_on_miss resps endpoint params cacheTtl now st hmiss]
    unfold mr_loop
    rw [h0]
    have h2 : (200 ≤ 200 ∧ 200 < 300) := by norm_num
    simp only [h2, if_true]
    refine ⟨rfl, ?_, rfl⟩
    simp [cache_data, fupd]
  · intro resps endpoint params cacheTtl now st hgc
    unfold make_request
    simp only
    rw [hgc]
    have ht : truthy (.vlist []) = false := rfl
    simp only [ht, Bool.false_eq_true, if_false]
    exact mr_loop_attempts_pos resps endpoint (cacheKeyOf endpoint params) cacheTtl now 3 0 []
      (get_cached_data now (cacheKeyOf endpoint params) st).2

/-- Witness for C10 at a concrete instance: a 200 with empty-list body
    from the empty cache is returned, cached, and took one request; and a
    repeat call on the resulting cache state again issues a request. -/
theorem make_request_empty_body_not_served_witness :
    ((make_request (fun _ => .http 200 (.vlist [])) "/matches" "x" 10 0 emptyClientCache).result
        = .vlist []
      ∧ (make_request (fun _ => .http 200 (.vlist [])) "/matches" "x" 10 0 emptyClientCache).cache.mem
          (cacheKeyOf "/matches" "x") = some (.vlist [])
      ∧ (make_request (fun _ => .http 200 (.vlist [])) "/matches" "x" 10 0 emptyClientCache).attempts = 1)
    ∧ 1 ≤ (make_request (fun _ => .http 200 (.vlist [])) "/matches" "x" 10 0
        (cache_data 0 (cacheKeyOf "/matches" "x") (.vlist []) 10 emptyClientCache)).attempts := by
  constructor
  · exact make_request_empty_body_not_served.1 (fun _ => .http 200 (.vlist []))
      "/matches" "x" 10 0 emptyClientCache rfl rfl
  · exact make_request_empty_body_not_served.2 (fun _ => .http 200 (.vlist []))
      "/matches" "x" 10 0
      (cache_data 0 (cacheKeyOf "/matches" "x") (.vlist []) 10 emptyClientCache) rfl

section DurableTier

theorem get_cached_durable_read (now : Nat) (key : String) (st : ClientCache)
    (exp : Nat) (data : PyVal) (hvalid : is_cache_valid now key st = false)
    (hfile : st.file key = some (exp, data)) (hexp : now < exp) :
    get_cached_data now key st
      = (some data, ⟨fupd st.mem key Option.none, fupd st.memExp key Option.none, st.file⟩) := by
  unfold get_cached_data
  simp only [hvalid, Bool.false_eq_true, if_false]
  rw [hfile]
  simp [hexp]

end DurableTier

/-- C9 (amended): a valid durable-tier hit is returned to the caller but
    is not promoted into the in-process tier: after the read the
    in-process map still lacks the key (its entry is cleared, not
    populated), the durable record is left in place, and an immediately
    following get for the same key consults the durable store again and is
    served from it, not from the in-process tier. -/
theorem durable_hit_not_promoted (now : Nat) (key : String) (st : ClientCache)
    (exp : Nat) (data : PyVal) (hvalid : is_cache_valid now key st = false)
    (hfile : st.file key = some (exp, data)) (hexp : now < exp) :
    (get_cached_data now key st).1 = some data
    ∧ (get_cached_data now key st).2.mem key = Option.none
    ∧ (get_cached_data now key st).2.file key = some (exp, data)
    ∧ (get_cached_data now key (get_cached_data now key st).2).1 = some data
    ∧ (get_cached_data now key (get_cached_data now key st).2).2.mem key = Option.none := by
  have h1 := get_cached_durable_read now key st exp data hvalid hfile hexp
  rw [h1]
  have hvalid2 : is_cache_valid now key
      ⟨fupd st.mem key Option.none, fupd st.memExp key Option.none, st.file⟩ = false := by
    simp [is_cache_valid, fupd]
  have h2 := get_cached_durable_read now key
    ⟨fupd st.mem key Option.none, fupd st.memExp key Option.none, st.file⟩
    exp data hvalid2 hfile hexp
  refine ⟨rfl, by simp [fupd], hfile, ?_, ?_⟩
  · rw [h2]
  · rw [h2]
    simp [fupd]

/-- Witness for C9 at a concrete instance: an empty in-process tier with a
    durable record for the key, read at time 0 with expiry 10. -/
theorem durable_hit_not_promoted_witness :
    (get_cached_data 0 "k"
        ⟨fun _ => Option.none, fun _ => Option.none,
          fupd (fun _ => Option.none) "k" (some (10, .vint 7))⟩).1 = some (.vint 7)
    ∧ (get_cached_data 0 "k"
        ⟨fun _ => Option.none, fun _ => Option.none,
          fupd (fun _ => Option.none) "k" (some (10, .vint 7))⟩).2.mem "k" = Option.none
    ∧ (get_cached_data 0 "k"
        ⟨fun _ => Option.none, fun _ => Option.none,
          fupd (fun _ => Option.none) "k" (some (10, .vint 7))⟩).2.file "k" = some (10, .vint 7)
    ∧ (get_cached_data 0 "k" (get_cached_data 0 "k"
        ⟨fun _ => Option.none, fun _ => Option.none,
          fupd (fun _ => Option.none) "k" (some (10, .vint 7))⟩).2).1 = some (.vint 7)
    ∧ (get_cached_data 0 "k" (get_cached_data 0 "k"
        ⟨fun _ => Option.none, fun _ => Option.none,
          fupd (fun _ => Option.none) "k" (some (10, .vint 7))⟩).2).2.mem "k" = Option.none :=
  durable_hit_not_promoted 0 "k"
    ⟨fun _ => Option.none, fun _ => Option.none,
      fupd (fun _ => Option.none) "k" (some (10, .vint 7))⟩
    10 (.vint 7) rfl rfl (by norm_num)

/-- C9 counterexample: with an empty in-process tier and a valid durable
    record, the read returns the durable value but afterwards the
    in-process map still does not contain the key, refuting the claimed
    promotion into the in-process tier. -/
theorem durable_hit_promotion_cex :
    (get_cached_data 0 "k"
        ⟨fun _ => Option.none, fun _ => Option.none,
          fupd (fun _ => Option.none) "k" (some (10, .vint 7))⟩).1 = some (.vint 7)
    ∧ (get_cached_data 0 "k"
        ⟨fun _ => Option.none, fun _ => Option.none,
          fupd (fun _ => Option.none) "k" (some (10, .vint 7))⟩).2.mem "k" = Option.none := by
  constructor
  · rfl
  · rfl

section HeadToHead

/-- Extraction of the match list from the head-to-head response
    (agent.py line 326): a dict yields its data field (default empty
    list); any other falsy value collapses to the empty list. -/
def h2h_extract (resp : PyVal) : PyVal :=
  match resp with
  | .vdict d => dget d "data" (.vlist [])
  | v => if truthy v then v else .vlist []

/-- The check isinstance(h2h_data, list) and len(h2h_data) > 0
    (agent.py line 333), returning the nonempty list when it holds. -/
def isNonemptyList : PyVal → Option (List PyVal)
  | .vlist (x :: xs) => some (x :: xs)
  | _ => Option.none

/-- The short fixed delay before the single head-to-head retry
    (agent.py line 346, asyncio.sleep(0.5)). -/
def h2h_retry_delay : Rat := 1 / 2

/-- Result of the head-to-head empty-guard: the returned match data, the
    reuse flag ("cache": True), whether the single retry ran, the sleeps
    performed, and the last-known-good cache afterwards.  A fresh
    non-empty result continues into enrichment, which is outside this
    guard. -/
structure H2HResult where
  data : PyVal
  fromCache : Bool
  retried : Bool
  sleeps : List Rat
  cache : String → Option (List PyVal)

/-- The retry path (agent.py lines 345-362): sleep 0.5s, query again; a
    non-empty retry updates the last-known-good cache and proceeds; an
    empty retry returns the retry data (or the empty list when falsy)
    without touching the cache. -/
def h2h_retry (resp2 : PyVal) (key : String)
    (cache : String → Option (List PyVal)) : H2HResult :=
  match isNonemptyList (h2h_extract resp2) with
  | some l => ⟨.vlist l, false, true, [h2h_retry_delay], fupd cache key (some l)⟩
  | Option.none => ⟨pyOr (h2h_extract resp2) (.vlist []), false, true, [h2h_retry_delay], cache⟩

/-- The head-to-head empty-guard of fetch_highlightly_data (agent.py lines
    321-366): a non-empty first response updates the last-known-good cache
    and proceeds; an empty first response returns the cached matches
    flagged as reused when a truthy cached value exists, and otherwise
    retries exactly once. -/
def fetch_highlightly_h2h (resp1 resp2 : PyVal) (key : String)
    (cache : String → Option (List PyVal)) : H2HResult :=
  match isNonemptyList (h2h_extract resp1) with
  | some l => ⟨.vlist l, false, false, [], fupd cache key (some l)⟩
  | Option.none =>
    match cache key with
    | some c =>
      if c.isEmpty then h2h_retry resp2 key cache
      else ⟨.vlist c, true, false, [], cache⟩
    | Option.none => h2h_retry resp2 key cache

end HeadToHead

theorem isNonemptyList_ne_nil (v : PyVal) (l : List PyVal)
    (h : isNonemptyList v = some l) : l ≠ [] := by
  cases v with
  | vlist xs =>
    cases xs with
    | nil => simp [isNonemptyList] at h
    | cons x rest =>
      simp only [isNonemptyList] at h
      cases h
      simp
  | vnone => simp [isNonemptyList] at h
  | vint n => simp [isNonemptyList] at h
  | vfloat q => simp [isNonemptyList] at h
  | vstr s => simp [isNonemptyList] at h
  | vdict d => simp [isNonemptyList] at h

theorem pyOr_falsy (a b : PyVal) (h : truthy a = false) : pyOr a b = b := by
  unfold pyOr
  rw [h]
  simp

theorem truthy_false_not_nonempty (v : PyVal) (h : truthy v = false) :
    isNonemptyList v = Option.none := by
  cases v with
  | vlist xs =>
    cases xs with
    | nil => rfl
    | cons x rest => simp [truthy] at h
  | vnone => rfl
  | vint n => rfl
  | vfloat q => rfl
  | vstr s => rfl
  | vdict d => rfl

/-- C5: in the head-to-head workflow, the last-known-good cache is updated
    only when a non-empty match list arrives (for every key it is either
    unchanged or set to a non-empty list); a fresh empty response with a
    non-empty cached value returns that cached list flagged as reused,
    without retrying; and a fresh empty response with no cached value
    retries exactly once after the fixed 0.5 second delay, a still-empty
    retry being returned as the empty list without the reuse flag. -/
theorem h2h_empty_guard :
    (∀ (resp1 resp2 : PyVal) (key k2 : String) (cache : String → Option (List PyVal)),
      (fetch_highlightly_h2h resp1 resp2 key cache).cache k2 = cache k2
      ∨ ∃ l, (fetch_highlightly_h2h resp1 resp2 key cache).cache k2 = some l ∧ l ≠ [])
    ∧ (∀ (resp1 resp2 : PyVal) (key : String) (cache : String → Option (List PyVal))
        (c : List PyVal),
      isNonemptyList (h2h_extract resp1) = Option.none → cache key = some c → c ≠ [] →
      fetch_highlightly_h2h resp1 resp2 key cache = ⟨.vlist c, true, false, [], cache⟩)
    ∧ (∀ (resp1 resp2 : PyVal) (key : String) (cache : String → Option (List PyVal)),
      isNonemptyList (h2h_extract resp1) = Option.none → cache key = Option.none →
      (fetch_highlightly_h2h resp1 resp2 key cache).retried = true
      ∧ (fetch_highlightly_h2h resp1 resp2 key cache).sleeps = [h2h_retry_delay]
      ∧ (truthy (h2h_extract resp2) = false →
          (fetch_highlightly_h2h resp1 resp2 key cache).data = .vlist []
          ∧ (fetch_highlightly_h2h resp1 resp2 key cache).fromCache = false
          ∧ (fetch_highlightly_h2h resp1 resp2 key cache).cache key = Option.none)) := by
  refine ⟨?_, ?_, ?_⟩
  · intro resp1 resp2 key k2 cache
    unfold fetch_highlightly_h2h
    cases h1 : isNonemptyList (h2h_extract resp1) with
    | some l =>
      simp only
      by_cases hk : k2 = key
      · subst hk
        exact Or.inr ⟨l, by simp [fupd], isNonemptyList_ne_nil _ l h1⟩
      · left
        simp [fupd, hk]
    | none =>
      simp only
      have hretry : (h2h_retry resp2 key cache).cache k2 = cache k2
          ∨ ∃ l, (h2h_retry resp2 key cache).cache k2 = some l ∧ l ≠ [] := by
        unfold h2h_retry
        cases h2 : isNonemptyList (h2h_extract resp2) with
        | some l =>
          simp only
          by_cases hk : k2 = key
          · subst hk
            exact Or.inr ⟨l, by simp [fupd], isNonemptyList_ne_nil _ l h2⟩
          · left
            simp [fupd, hk]
        | none => exact Or.inl rfl
      cases hc : cache key with
      | some c =>
        by_cases he : c.isEmpty
        · simp only [he, if_true]
          exact hretry
        · simp only [he, Bool.false_eq_true, if_false]
          exact Or.inl trivial
      | none => exact hretry
  · intro resp1 resp2 key cache c h1 hc hne
    unfold fetch_highlightly_h2h
    rw [h1, hc]
    have he : c.isEmpty = false := by
      cases c with
      | nil => exact absurd rfl hne
      | cons x rest => rfl
    simp [he]
  · intro resp1 resp2 key cache h1 hc
    unfold fetch_highlightly_h2h
    rw [h1, hc]
    refine ⟨?_, ?_, ?_⟩
    · unfold h2h_retry
      cases isNonemptyList (h2h_extract resp2) with
      | some l => rfl
      | none => rfl
    · unfold h2h_retry
      cases isNonemptyList (h2h_extract resp2) with
      | some l => rfl
      | none => rfl
    · intro h2
      unfold h2h_retry
      rw [truthy_false_not_nonempty _ h2]
      simp only
      exact ⟨pyOr_falsy _ _ h2, by trivial, hc⟩

/-- Witness for C5 at concrete instances: an empty fresh response with a
    cached match list returns the cached list flagged as reused, and an
    empty fresh response with an empty cache retries once after the fixed
    delay and returns empty. -/
theorem h2h_empty_guard_witness :
    fetch_highlightly_h2h (.vdict [("data", .vlist [])]) (.vdict [("data", .vlist [])])
        "H2H:NFL:jets|patriots" (fupd (fun _ => Option.none) "H2H:NFL:jets|patriots" (some [.vint 1]))
      = ⟨.vlist [.vint 1], true, false, [],
          fupd (fun _ => Option.none) "H2H:NFL:jets|patriots" (some [.vint 1])⟩
    ∧ (fetch_highlightly_h2h (.vdict [("data", .vlist [])]) (.vdict [("data", .vlist [])])
        "H2H:NFL:jets|patriots" (fun _ => Option.none)).retried = true
    ∧ (fetch_highlightly_h2h (.vdict [("data", .vlist [])]) (.vdict [("data", .vlist [])])
        "H2H:NFL:jets|patriots" (fun _ => Option.none)).data = .vlist []
    ∧ ((fetch_highlightly_h2h (.vdict [("data", .vlist [.vint 5])])
        (.vdict []) "k" (fun _ => Option.none)).cache "k2" = (fun _ => (Option.none : Option (List PyVal))) "k2"
      ∨ ∃ l, (fetch_highlightly_h2h (.vdict [("data", .vlist [.vint 5])])
        (.vdict []) "k" (fun _ => Option.none)).cache "k2" = some l ∧ l ≠ []) := by
  refine ⟨?_, ?_, ?_, ?_⟩
  · exact h2h_empty_guard.2.1 (.vdict [("data", .vlist [])]) (.vdict [("data", .vlist [])])
      "H2H:NFL:jets|patriots" (fupd (fun _ => Option.none) "H2H:NFL:jets|patriots" (some [.vint 1]))
      [.vint 1] rfl (by simp [fupd]) (by simp)
  · exact (h2h_empty_guard.2.2 (.vdict [("data", .vlist [])]) (.vdict [("data", .vlist [])])
      "H2H:NFL:jets|patriots" (fun _ => Option.none) rfl rfl).1
  · exact ((h2h_empty_guard.2.2 (.vdict [("data", .vlist [])]) (.vdict [("data", .vlist [])])
      "H2H:NFL:jets|patriots" (fun _ => Option.none) rfl rfl).2.2 rfl).1
  · exact h2h_empty_guard.1 (.vdict [("data", .vlist [.vint 5])])
      (.vdict []) "k" "k2" (fun _ => Option.none)

section TeamResolver

/-- Unwrapping of the /teams response in resolve_team_id (highlightly.py
    lines 779-781): a dict carrying a data field is replaced by that
    field, everything else is taken as-is. -/
def resolve_unwrap (upstream : PyVal) : PyVal :=
  match upstream with
  | .vdict d => if (dlookup d "data").isSome then dget d "data" (.vlist []) else .vdict d
  | v => v

/-- Result of one resolve_team_id call: the resolved id, the team-id cache
    afterwards, and the number of request-client calls issued for the
    lookup itself. -/
structure ResolveOutcome where
  teamId : Option Int
  cache : String → Option Int
  requests : Nat

/-- resolve_team_id (highlightly.py lines 727-795), with the cache key
    already assembled from league, name, displayName and abbreviation, the
    team catalog assumed warm (the one-off warm fetch of lines 749-761 is
    not modeled), and the /teams response supplied as an argument: a
    cached id is returned with no request; otherwise one request is made,
    a non-empty unwrapped list whose first entry carries an int id
    resolves and caches that id (with no expiry), and every other outcome
    returns no id and leaves the cache untouched. -/
def resolve_team_id (cacheKey : String) (cache : String → Option Int)
    (upstream : PyVal) : ResolveOutcome :=
  match cache cacheKey with
  | some tid => ⟨some tid, cache, 0⟩
  | Option.none =>
    match resolve_unwrap upstream with
    | .vlist (x :: _) =>
      match (match x with | .vdict xd => dlookup xd "id" | _ => Option.none) with
      | some (.vint n) => ⟨some n, fupd cache cacheKey (some n), 1⟩
      | _ => ⟨Option.none, cache, 1⟩
    | _ => ⟨Option.none, cache, 1⟩

end TeamResolver

/-- C8 (amended): the team resolver caches only successful resolutions,
    under the assembled (league, input) key and with no expiry at all; a
    resolution failure is not cached: the team-id cache is left untouched
    and a repeated failing lookup issues the upstream query again, while a
    repeated successful lookup is served from the cache with no request. -/
theorem resolve_team_id_caching :
    (∀ (cacheKey : String) (cache : String → Option Int) (upstream : PyVal),
      cache cacheKey = Option.none →
      isNonemptyList (resolve_unwrap upstream) = Option.none →
      (resolve_team_id cacheKey cache upstream).teamId = Option.none
      ∧ (∀ k2, (resolve_team_id cacheKey cache upstream).cache k2 = cache k2)
      ∧ (resolve_team_id cacheKey cache upstream).requests = 1
      ∧ (resolve_team_id cacheKey
          ((resolve_team_id cacheKey cache upstream).cache) upstream).requests = 1)
    ∧ (∀ (cacheKey : String) (cache : String → Option Int) (upstream : PyVal)
        (xd : PyDict) (rest : List PyVal) (n : Int),
      cache cacheKey = Option.none →
      resolve_unwrap upstream = .vlist (.vdict xd :: rest) →
      dlookup xd "id" = some (.vint n) →
      (resolve_team_id cacheKey cache upstream).teamId = some n
      ∧ (resolve_team_id cacheKey cache upstream).cache cacheKey = some n
      ∧ (resolve_team_id cacheKey cache upstream).requests = 1
      ∧ (∀ up2, (resolve_team_id cacheKey
            ((resolve_team_id cacheKey cache upstream).cache) up2).requests = 0
          ∧ (resolve_team_id cacheKey
              ((resolve_team_id cacheKey cache upstream).cache) up2).teamId = some n)) := by
  constructor
  · intro cacheKey cache upstream hmiss hempty
    have hres : resolve_team_id cacheKey cache upstream = ⟨Option.none, cache, 1⟩ := by
      unfold resolve_team_id
      rw [hmiss]
      cases hu : resolve_unwrap upstream with
      | vlist xs =>
        cases xs with
        | nil => rfl
        | cons x rest =>
          rw [hu] at hempty
          simp [isNonemptyList] at hempty
      | vnone => rfl
      | vint m => rfl
      | vfloat q => rfl
      | vstr s => rfl
      | vdict d => rfl
    rw [hres]
    refine ⟨rfl, fun k2 => rfl, rfl, ?_⟩
    rw [show (ResolveOutcome.mk Option.none cache 1).cache = cache from rfl]
    rw [hres]
  · intro cacheKey cache upstream xd rest n hmiss hu hid
    have hres : resolve_team_id cacheKey cache upstream
        = ⟨some n, fupd cache cacheKey (some n), 1⟩ := by
      unfold resolve_team_id
      rw [hmiss, hu]
      dsimp only
      rw [hid]
    rw [hres]
    refine ⟨rfl, by simp [fupd], rfl, ?_⟩
    intro up2
    constructor
    · unfold resolve_team_id
      simp [fupd]
    · unfold resolve_team_id
      simp [fupd]

/-- Witness for C8 at concrete instances: an empty /teams response leaves
    the cache without the key and a repeat lookup queries again; a
    response resolving to id 42 is cached and a repeat lookup answers from
    the cache with no request. -/
theorem resolve_team_id_caching_witness :
    ((resolve_team_id "NFL|jets" (fun _ => Option.none)
        (.vdict [("data", .vlist [])])).teamId = Option.none
      ∧ (∀ k2, (resolve_team_id "NFL|jets" (fun _ => Option.none)
          (.vdict [("data", .vlist [])])).cache k2 = (fun _ => (Option.none : Option Int)) k2)
      ∧ (resolve_team_id "NFL|jets" (fun _ => Option.none)
          (.vdict [("data", .vlist [])])).requests = 1
      ∧ (resolve_team_id "NFL|jets"
          ((resolve_team_id "NFL|jets" (fun _ => Option.none)
            (.vdict [("data", .vlist [])])).cache)
          (.vdict [("data", .vlist [])])).requests = 1)
    ∧ ((resolve_team_id "NFL|jets" (fun _ => Option.none)
        (.vdict [("data", .vlist [.vdict [("id", .vint 42)]])])).teamId = some 42
      ∧ (resolve_team_id "NFL|jets" (fun _ => Option.none)
          (.vdict [("data", .vlist [.vdict [("id", .vint 42)]])])).cache "NFL|jets" = some 42) := by
  constructor
  · exact resolve_team_id_caching.1 "NFL|jets" (fun _ => Option.none)
      (.vdict [("data", .vlist [])]) rfl rfl
  · have h := resolve_team_id_caching.2 "NFL|jets" (fun _ => Option.none)
      (.vdict [("data", .vlist [.vdict [("id", .vint 42)]])])
      [("id", .vint 42)] [] 42 rfl rfl rfl
    exact ⟨h.1, h.2.1⟩

/-- C8 counterexample: after a lookup that fails to resolve (empty /teams
    response), the resolver cache holds no entry for the key at all (no
    negative caching, no TTL), and an immediately repeated lookup issues
    another upstream query instead of being answered by a cached failure. -/
theorem resolve_team_id_negative_cache_cex :
    (resolve_team_id "NFL|sharks" (fun _ => Option.none)
        (.vdict [("data", .vlist [])])).teamId = Option.none
    ∧ (resolve_team_id "NFL|sharks" (fun _ => Option.none)
        (.vdict [("data", .vlist [])])).cache "NFL|sharks" = Option.none
    ∧ (resolve_team_id "NFL|sharks" (fun _ => Option.none)
        (.vdict [("data", .vlist [])])).requests = 1
    ∧ (resolve_team_id "NFL|sharks"
        ((resolve_team_id "NFL|sharks" (fun _ => Option.none)
          (.vdict [("data", .vlist [])])).cache)
        (.vdict [("data", .vlist [])])).requests = 1 :=
  ⟨rfl, rfl, rfl, rfl⟩
